import Mathlib

/-!
Shallow embedding of the preference-management subsystem of the
Jalez/news-platform repository (backend/src/services/userPreferencesService.ts,
backend/src/repositories/userPreferencesRepository.ts,
backend/src/utils/preferenceMigrationUtilities.ts).

Enumerated preference values are strings at runtime in the source (TypeScript
string enums), so they are modelled as `String` here, with the validity
predicates from the shared package checking membership in the enum value list.
The Postgres store is modelled as in-memory lists of rows; `id`, `created_at`
and `updated_at` columns are bookkeeping never read by the embedded logic and
are omitted from the row records.  `Date.now()` is modelled as an explicit
natural-number millisecond clock passed to the session operations.
-/

namespace NewsPlatform

/-- Validity predicate for political perspectives (shared enum values). -/
def isValidPerspective (s : String) : Bool :=
  ["conservative", "liberal", "democratic", "progressive", "neutral"].contains s

/-- Validity predicate for writing tones (shared enum values). -/
def isValidTone (s : String) : Bool :=
  ["formal", "casual", "analytical", "conversational", "professional"].contains s

/-- Validity predicate for languages (shared enum values). -/
def isValidLanguage (s : String) : Bool :=
  ["en", "es", "fr", "de", "it", "pt"].contains s

/-- Validity predicate for AI models (shared enum values). -/
def isValidAIModel (s : String) : Bool :=
  ["openai", "anthropic", "google", "grok", "local"].contains s

/-- Validity predicate for propaganda sensitivity (shared enum values). -/
def isValidSensitivity (s : String) : Bool :=
  ["low", "medium", "high"].contains s

/-- Row of the user_preferences table (columns read by the subsystem). -/
structure UserPreferencesRow where
  user_id : String
  perspective : String
  tone : String
  language : String
  ai_model : String
  fact_checking_enabled : Bool
  propaganda_detection_enabled : Bool
  propaganda_sensitivity : String
deriving DecidableEq, Repr

/-- Row of the content_filters table (columns read by the subsystem). -/
structure ContentFiltersRow where
  user_id : String
  included_topics : List String
  excluded_topics : List String
  included_people : List String
  excluded_people : List String
  included_organizations : List String
  excluded_organizations : List String
deriving DecidableEq, Repr

/-- The persistent store: the two tables the subsystem touches. -/
structure Store where
  preferences : List UserPreferencesRow
  contentFilters : List ContentFiltersRow
deriving DecidableEq, Repr

/-- Partial update object for user preferences (UpdateUserPreferencesInput):
each field independently optional, `none` meaning the key is absent. -/
structure UpdateUserPreferencesInput where
  perspective : Option String := none
  tone : Option String := none
  language : Option String := none
  ai_model : Option String := none
  fact_checking_enabled : Option Bool := none
  propaganda_detection_enabled : Option Bool := none
  propaganda_sensitivity : Option String := none
deriving DecidableEq, Repr

/-- Partial create/update object for content filters. -/
structure UpdateContentFiltersInput where
  included_topics : Option (List String) := none
  excluded_topics : Option (List String) := none
  included_people : Option (List String) := none
  excluded_people : Option (List String) := none
  included_organizations : Option (List String) := none
  excluded_organizations : Option (List String) := none
deriving DecidableEq, Repr

/-- External (API) shape of content filters. -/
structure ApiContentFilters where
  includedTopics : List String
  excludedTopics : List String
  includedPeople : List String
  excludedPeople : List String
  includedOrganizations : List String
  excludedOrganizations : List String
deriving DecidableEq, Repr

/-- External (API) shape of user preferences (BaseUserPreferences). -/
structure BaseUserPreferences where
  perspective : String
  tone : String
  language : String
  aiModel : String
  factCheckingEnabled : Bool
  propagandaDetectionEnabled : Bool
  propagandaSensitivity : String
  contentFilters : ApiContentFilters
deriving DecidableEq, Repr

/-- A session overlay for content filters: each field optional, as the
session stores an arbitrary partial object at runtime. -/
structure FiltersOverlay where
  includedTopics : Option (List String) := none
  excludedTopics : Option (List String) := none
  includedPeople : Option (List String) := none
  excludedPeople : Option (List String) := none
  includedOrganizations : Option (List String) := none
  excludedOrganizations : Option (List String) := none
deriving DecidableEq, Repr

/-- A session overlay: a partial BaseUserPreferences
(present JS object keys are `some`, absent keys are `none`). -/
structure PrefsOverlay where
  perspective : Option String := none
  tone : Option String := none
  language : Option String := none
  aiModel : Option String := none
  factCheckingEnabled : Option Bool := none
  propagandaDetectionEnabled : Option Bool := none
  propagandaSensitivity : Option String := none
  contentFilters : Option FiltersOverlay := none
deriving DecidableEq, Repr

/-- What storeSessionPreferences puts in the session map: the overlay object
spread together with a timestamp key (the flat JS object is modelled as a
two-field record: its preference keys and its timestamp key). -/
structure SessionEntry where
  prefs : PrefsOverlay
  timestamp : Nat
deriving DecidableEq, Repr

/-- The in-memory session store (a JS Map from session id to stored entry). -/
abbrev SessionStore := List (String × SessionEntry)

/-- Remove the entry for a session id (Map.delete). -/
def sessionErase (s : SessionStore) (sid : String) : SessionStore :=
  s.filter (fun p => p.1 != sid)

/-- Insert or replace the entry for a session id (Map.set). -/
def sessionSet (s : SessionStore) (sid : String) (e : SessionEntry) : SessionStore :=
  (sid, e) :: sessionErase s sid

/-- Lookup a session id (Map.get / Map.has). -/
def sessionLookup (s : SessionStore) (sid : String) : Option SessionEntry :=
  List.lookup sid s

/-- Session preference time-to-live in milliseconds: 60 * 60 * 1000. -/
def sessionTTL : Nat := 60 * 60 * 1000

/-- Embedding of UserPreferencesService.storeSessionPreferences: stores the
overlay spread together with a timestamp equal to the current clock. -/
def storeSessionPreferences (s : SessionStore) (sid : String)
    (preferences : PrefsOverlay) (now : Nat) : SessionStore :=
  sessionSet s sid { prefs := preferences, timestamp := now }

/-- Embedding of UserPreferencesService.getSessionPreferences: returns the
stored entry unless absent or older than one hour; an expired entry is
deleted from the map.  Returns the read result and the updated map. -/
def getSessionPreferences (s : SessionStore) (sid : String) (now : Nat) :
    Option SessionEntry × SessionStore :=
  match sessionLookup s sid with
  | none => (none, s)
  | some stored =>
    if now - stored.timestamp > sessionTTL then
      (none, sessionErase s sid)
    else
      (some stored, s)

namespace Repo

/-- Embedding of UserPreferencesRepository.getUserPreferences:
SELECT * FROM user_preferences WHERE user_id = $1, first row or null. -/
def getUserPreferences (store : Store) (userId : String) : Option UserPreferencesRow :=
  store.preferences.find? (fun r => r.user_id == userId)

/-- Embedding of UserPreferencesRepository.getUserContentFilters. -/
def getUserContentFilters (store : Store) (userId : String) : Option ContentFiltersRow :=
  store.contentFilters.find? (fun r => r.user_id == userId)

/-- Embedding of UserPreferencesRepository.getCompleteUserPreferences:
both reads in one transaction. -/
def getCompleteUserPreferences (store : Store) (userId : String) :
    Option UserPreferencesRow × Option ContentFiltersRow :=
  (getUserPreferences store userId, getUserContentFilters store userId)

/-- Embedding of UserPreferencesRepository.hasUserPreferences:
SELECT EXISTS(...). -/
def hasUserPreferences (store : Store) (userId : String) : Bool :=
  (getUserPreferences store userId).isSome

/-- Default-filled preferences row built by createCompleteUserPreferences from
an optional partial input (destructuring with the documented defaults). -/
def newPreferencesRow (userId : String) (input : UpdateUserPreferencesInput) :
    UserPreferencesRow :=
  { user_id := userId
    perspective := input.perspective.getD "neutral"
    tone := input.tone.getD "professional"
    language := input.language.getD "en"
    ai_model := input.ai_model.getD "openai"
    fact_checking_enabled := input.fact_checking_enabled.getD true
    propaganda_detection_enabled := input.propaganda_detection_enabled.getD true
    propaganda_sensitivity := input.propaganda_sensitivity.getD "medium" }

/-- Default-filled content-filters row built by createCompleteUserPreferences. -/
def newFiltersRow (userId : String) (input : UpdateContentFiltersInput) :
    ContentFiltersRow :=
  { user_id := userId
    included_topics := input.included_topics.getD []
    excluded_topics := input.excluded_topics.getD []
    included_people := input.included_people.getD []
    excluded_people := input.excluded_people.getD []
    included_organizations := input.included_organizations.getD []
    excluded_organizations := input.excluded_organizations.getD [] }

/-- Embedding of UserPreferencesRepository.createCompleteUserPreferences:
inserts one preferences row and one content-filters row in one transaction,
filling unsupplied fields with the defaults; returns both new rows. -/
def createCompleteUserPreferences (store : Store) (userId : String)
    (preferencesInput : UpdateUserPreferencesInput)
    (filtersInput : UpdateContentFiltersInput) :
    (UserPreferencesRow × ContentFiltersRow) × Store :=
  let p := newPreferencesRow userId preferencesInput
  let f := newFiltersRow userId filtersInput
  ((p, f),
   { preferences := store.preferences ++ [p]
     contentFilters := store.contentFilters ++ [f] })

/-- Does a preference update object carry at least one defined field?
Mirrors the dynamic field collection of the UPDATE query builder. -/
def prefUpdateNonempty (u : UpdateUserPreferencesInput) : Bool :=
  u.perspective.isSome || u.tone.isSome || u.language.isSome || u.ai_model.isSome ||
  u.fact_checking_enabled.isSome || u.propaganda_detection_enabled.isSome ||
  u.propaganda_sensitivity.isSome

/-- Apply the defined fields of a preference update to a row
(the SET clause of the generated UPDATE). -/
def applyPrefUpdate (row : UserPreferencesRow) (u : UpdateUserPreferencesInput) :
    UserPreferencesRow :=
  { row with
    perspective := u.perspective.getD row.perspective
    tone := u.tone.getD row.tone
    language := u.language.getD row.language
    ai_model := u.ai_model.getD row.ai_model
    fact_checking_enabled := u.fact_checking_enabled.getD row.fact_checking_enabled
    propaganda_detection_enabled :=
      u.propaganda_detection_enabled.getD row.propaganda_detection_enabled
    propaganda_sensitivity := u.propaganda_sensitivity.getD row.propaganda_sensitivity }

/-- Replace the preferences row of a user (effect of UPDATE ... WHERE user_id). -/
def setPreferencesRow (store : Store) (userId : String) (row : UserPreferencesRow) :
    Store :=
  { store with
    preferences := store.preferences.map (fun r => if r.user_id == userId then row else r) }

/-- Embedding of UserPreferencesRepository.updateUserPreferences: with no
defined fields the call degenerates to a read; otherwise the generated UPDATE
runs, returning the updated row or null when no row matched. -/
def updateUserPreferences (store : Store) (userId : String)
    (updates : UpdateUserPreferencesInput) : Option UserPreferencesRow × Store :=
  if prefUpdateNonempty updates then
    match getUserPreferences store userId with
    | none => (none, store)
    | some row =>
      let row2 := applyPrefUpdate row updates
      (some row2, setPreferencesRow store userId row2)
  else
    (getUserPreferences store userId, store)

/-- Does a content-filters update object carry at least one defined field? -/
def filtersUpdateNonempty (u : UpdateContentFiltersInput) : Bool :=
  u.included_topics.isSome || u.excluded_topics.isSome || u.included_people.isSome ||
  u.excluded_people.isSome || u.included_organizations.isSome ||
  u.excluded_organizations.isSome

/-- Apply the defined fields of a content-filters update to a row. -/
def applyFiltersUpdate (row : ContentFiltersRow) (u : UpdateContentFiltersInput) :
    ContentFiltersRow :=
  { row with
    included_topics := u.included_topics.getD row.included_topics
    excluded_topics := u.excluded_topics.getD row.excluded_topics
    included_people := u.included_people.getD row.included_people
    excluded_people := u.excluded_people.getD row.excluded_people
    included_organizations := u.included_organizations.getD row.included_organizations
    excluded_organizations := u.excluded_organizations.getD row.excluded_organizations }

/-- Replace the content-filters row of a user. -/
def setFiltersRow (store : Store) (userId : String) (row : ContentFiltersRow) : Store :=
  { store with
    contentFilters :=
      store.contentFilters.map (fun r => if r.user_id == userId then row else r) }

/-- Embedding of UserPreferencesRepository.updateUserContentFilters. -/
def updateUserContentFilters (store : Store) (userId : String)
    (updates : UpdateContentFiltersInput) : Option ContentFiltersRow × Store :=
  if filtersUpdateNonempty updates then
    match getUserContentFilters store userId with
    | none => (none, store)
    | some row =>
      let row2 := applyFiltersUpdate row updates
      (some row2, setFiltersRow store userId row2)
  else
    (getUserContentFilters store userId, store)

/-- Embedding of UserPreferencesRepository.deleteUserPreferences: deletes the
preferences row (content filters cascade) and reports whether a row went away. -/
def deleteUserPreferences (store : Store) (userId : String) : Bool × Store :=
  let remaining := store.preferences.filter (fun r => r.user_id != userId)
  (remaining.length < store.preferences.length,
   { preferences := remaining
     contentFilters := store.contentFilters.filter (fun r => r.user_id != userId) })

/-- Embedding of UserPreferencesRepository.getUsersByPreference for the
perspective column: SELECT * FROM user_preferences WHERE perspective = $1. -/
def getUsersByPerspective (store : Store) (value : String) : List UserPreferencesRow :=
  store.preferences.filter (fun r => r.perspective == value)

/-- One entry of a bulkUpdatePreferences call. -/
structure BulkUpdateEntry where
  userId : String
  preferences : UpdateUserPreferencesInput
deriving DecidableEq, Repr

/-- Embedding of UserPreferencesRepository.bulkUpdatePreferences: runs the
per-user UPDATE for each entry that has defined fields, collecting the rows
actually updated (an entry whose user has no row contributes nothing). -/
def bulkUpdatePreferences (store : Store) :
    List BulkUpdateEntry → List UserPreferencesRow × Store
  | [] => ([], store)
  | e :: rest =>
    if prefUpdateNonempty e.preferences then
      match getUserPreferences store e.userId with
      | some row =>
        let row2 := applyPrefUpdate row e.preferences
        let out := bulkUpdatePreferences (setPreferencesRow store e.userId row2) rest
        (row2 :: out.1, out.2)
      | none => bulkUpdatePreferences store rest
    else
      bulkUpdatePreferences store rest

end Repo

/-- A field-scoped validation error ({field, message, value?}). -/
structure ValidationError where
  field : String
  message : String
  value : Option String := none
deriving DecidableEq, Repr

/-- The uniform service result envelope {success, data?, errors?, message?};
an absent errors key is modelled as the empty list. -/
structure ServiceResult (α : Type) where
  success : Bool
  data : Option α := none
  errors : List ValidationError := []
  message : Option String := none
deriving DecidableEq, Repr

/-- Names of the repository operations a service call performs, recorded as a
trace so that absence of store access is expressible. -/
inductive RepoCall where
  | getComplete
  | hasPrefs
  | createComplete
  | updatePrefs
  | updateFilters
  | getPrefs
  | getFilters
  | deletePrefs
deriving DecidableEq, Repr

/-- Output of a store-touching service operation: the envelope, the resulting
store, and the trace of repository calls made. -/
structure ServiceOutput (α : Type) where
  result : ServiceResult α
  store : Store
  trace : List RepoCall
deriving Repr

namespace Service

/-- Embedding of UserPreferencesService.validateUserPreferences.  Boolean
fields are well-typed in the model, so the two typeof checks never fire. -/
def validateUserPreferences (input : UpdateUserPreferencesInput) :
    List ValidationError :=
  (match input.perspective with
   | some v => if isValidPerspective v then []
               else [{ field := "perspective", message := "Invalid political perspective",
                       value := some v }]
   | none => []) ++
  (match input.tone with
   | some v => if isValidTone v then []
               else [{ field := "tone", message := "Invalid writing tone", value := some v }]
   | none => []) ++
  (match input.language with
   | some v => if isValidLanguage v then []
               else [{ field := "language", message := "Invalid language", value := some v }]
   | none => []) ++
  (match input.ai_model with
   | some v => if isValidAIModel v then []
               else [{ field := "ai_model", message := "Invalid AI model", value := some v }]
   | none => []) ++
  (match input.propaganda_sensitivity with
   | some v => if isValidSensitivity v then []
               else [{ field := "propaganda_sensitivity",
                       message := "Invalid propaganda sensitivity level", value := some v }]
   | none => [])

/-- Embedding of UserPreferencesService.validateContentFilters.  Filter values
are well-typed string lists in the model, so the array-shape checks never
fire and the result is always empty; the function is kept for fidelity of the
call structure. -/
def validateContentFilters (_input : UpdateContentFiltersInput) :
    List ValidationError :=
  []

/-- The all-empty content filters the service substitutes when a user has no
content_filters row. -/
def emptyApiFilters : ApiContentFilters :=
  { includedTopics := []
    excludedTopics := []
    includedPeople := []
    excludedPeople := []
    includedOrganizations := []
    excludedOrganizations := [] }

/-- Embedding of UserPreferencesService.convertToApiFormat: null preferences
give null; a missing filters row becomes the six empty arrays. -/
def convertToApiFormat (preferences : Option UserPreferencesRow)
    (contentFilters : Option ContentFiltersRow) : Option BaseUserPreferences :=
  match preferences with
  | none => none
  | some p =>
    some
      { perspective := p.perspective
        tone := p.tone
        language := p.language
        aiModel := p.ai_model
        factCheckingEnabled := p.fact_checking_enabled
        propagandaDetectionEnabled := p.propaganda_detection_enabled
        propagandaSensitivity := p.propaganda_sensitivity
        contentFilters :=
          match contentFilters with
          | some f =>
            { includedTopics := f.included_topics
              excludedTopics := f.excluded_topics
              includedPeople := f.included_people
              excludedPeople := f.excluded_people
              includedOrganizations := f.included_organizations
              excludedOrganizations := f.excluded_organizations }
          | none => emptyApiFilters }

/-- The single validation error produced by the empty/missing user-id guard. -/
def userIdError : ValidationError :=
  { field := "userId", message := "Valid user ID is required" }

/-- Embedding of UserPreferencesService.getUserPreferences.  The JS guard
(!userId || typeof userId !== a string) is the empty-string test in the model. -/
def getUserPreferences (store : Store) (userId : String) :
    ServiceOutput BaseUserPreferences :=
  if userId == "" then
    { result := { success := false, errors := [userIdError] }, store := store, trace := [] }
  else
    let (preferences, contentFilters) := Repo.getCompleteUserPreferences store userId
    let apiFormat := convertToApiFormat preferences contentFilters
    { result :=
        { success := true
          data := apiFormat
          message := some (if preferences.isSome
            then "User preferences retrieved successfully"
            else "No preferences found for user") }
      store := store
      trace := [.getComplete] }

/-- Embedding of UserPreferencesService.createUserPreferences: user-id guard,
existence check (conflict), validation, then the transactional create. -/
def createUserPreferences (store : Store) (userId : String)
    (preferencesInput : UpdateUserPreferencesInput)
    (filtersInput : UpdateContentFiltersInput) :
    ServiceOutput BaseUserPreferences :=
  if userId == "" then
    { result := { success := false, errors := [userIdError] }, store := store, trace := [] }
  else if Repo.hasUserPreferences store userId then
    { result :=
        { success := false
          errors := [{ field := "userId", message := "User preferences already exist" }] }
      store := store
      trace := [.hasPrefs] }
  else
    let allErrors :=
      validateUserPreferences preferencesInput ++ validateContentFilters filtersInput
    if allErrors.isEmpty then
      let ((p, f), store2) :=
        Repo.createCompleteUserPreferences store userId preferencesInput filtersInput
      { result :=
          { success := true
            data := convertToApiFormat (some p) (some f)
            message := some "User preferences created successfully" }
        store := store2
        trace := [.hasPrefs, .createComplete] }
    else
      { result := { success := false, errors := allErrors }
        store := store
        trace := [.hasPrefs] }

/-- Embedding of UserPreferencesService.updateUserPreferences. -/
def updateUserPreferences (store : Store) (userId : String)
    (updates : UpdateUserPreferencesInput) : ServiceOutput BaseUserPreferences :=
  if userId == "" then
    { result := { success := false, errors := [userIdError] }, store := store, trace := [] }
  else
    let errors := validateUserPreferences updates
    if errors.isEmpty then
      match Repo.updateUserPreferences store userId updates with
      | (none, store2) =>
        { result :=
            { success := false
              errors := [{ field := "userId", message := "User preferences not found" }] }
          store := store2
          trace := [.updatePrefs] }
      | (some row, store2) =>
        let contentFilters := Repo.getUserContentFilters store2 userId
        { result :=
            { success := true
              data := convertToApiFormat (some row) contentFilters
              message := some "User preferences updated successfully" }
          store := store2
          trace := [.updatePrefs, .getFilters] }
    else
      { result := { success := false, errors := errors }, store := store, trace := [] }

/-- Embedding of UserPreferencesService.updateUserContentFilters. -/
def updateUserContentFilters (store : Store) (userId : String)
    (updates : UpdateContentFiltersInput) : ServiceOutput BaseUserPreferences :=
  if userId == "" then
    { result := { success := false, errors := [userIdError] }, store := store, trace := [] }
  else
    let errors := validateContentFilters updates
    if errors.isEmpty then
      match Repo.updateUserContentFilters store userId updates with
      | (none, store2) =>
        { result :=
            { success := false
              errors := [{ field := "userId", message := "User content filters not found" }] }
          store := store2
          trace := [.updateFilters] }
      | (some row, store2) =>
        let preferences := Repo.getUserPreferences store2 userId
        { result :=
            { success := true
              data := convertToApiFormat preferences (some row)
              message := some "User content filters updated successfully" }
          store := store2
          trace := [.updateFilters, .getPrefs] }
    else
      { result := { success := false, errors := errors }, store := store, trace := [] }

/-- Embedding of UserPreferencesService.updatePerspective. -/
def updatePerspective (store : Store) (userId : String) (perspective : String) :
    ServiceOutput BaseUserPreferences :=
  updateUserPreferences store userId { perspective := some perspective }

/-- Embedding of UserPreferencesService.updateTone. -/
def updateTone (store : Store) (userId : String) (tone : String) :
    ServiceOutput BaseUserPreferences :=
  updateUserPreferences store userId { tone := some tone }

/-- Embedding of UserPreferencesService.updateLanguage. -/
def updateLanguage (store : Store) (userId : String) (language : String) :
    ServiceOutput BaseUserPreferences :=
  updateUserPreferences store userId { language := some language }

/-- Embedding of UserPreferencesService.updateAIModel. -/
def updateAIModel (store : Store) (userId : String) (ai_model : String) :
    ServiceOutput BaseUserPreferences :=
  updateUserPreferences store userId { ai_model := some ai_model }

/-- Embedding of UserPreferencesService.deleteUserPreferences. -/
def deleteUserPreferences (store : Store) (userId : String) : ServiceOutput Bool :=
  if userId == "" then
    { result := { success := false, errors := [userIdError] }, store := store, trace := [] }
  else
    let (deleted, store2) := Repo.deleteUserPreferences store userId
    { result :=
        { success := true
          data := some deleted
          message := some (if deleted
            then "User preferences deleted successfully"
            else "No preferences found to delete") }
      store := store2
      trace := [.deletePrefs] }

/-- Embedding of UserPreferencesService.getOrCreateUserPreferences: read, and
create with all defaults when the read produced no data. -/
def getOrCreateUserPreferences (store : Store) (userId : String) :
    ServiceOutput BaseUserPreferences :=
  let existing := getUserPreferences store userId
  if existing.result.success && existing.result.data.isSome then
    existing
  else
    let created := createUserPreferences existing.store userId {} {}
    { created with trace := existing.trace ++ created.trace }

end Service

/-- Shape of the object getMergedPreferences builds: the spread of the
persisted API-shaped preferences with the stored session object.  Because the
stored session object carries the timestamp key added by
storeSessionPreferences, the spread result has a timestamp key whenever a
session overlay was merged; `none` models the key being absent. -/
structure MergedPreferences where
  perspective : String
  tone : String
  language : String
  aiModel : String
  factCheckingEnabled : Bool
  propagandaDetectionEnabled : Bool
  propagandaSensitivity : String
  contentFilters : ApiContentFilters
  timestamp : Option Nat := none
deriving DecidableEq, Repr

namespace Service

/-- A BaseUserPreferences object viewed as the merged shape (no session merge
performed, hence no timestamp key). -/
def plainMerged (b : BaseUserPreferences) : MergedPreferences :=
  { perspective := b.perspective
    tone := b.tone
    language := b.language
    aiModel := b.aiModel
    factCheckingEnabled := b.factCheckingEnabled
    propagandaDetectionEnabled := b.propagandaDetectionEnabled
    propagandaSensitivity := b.propagandaSensitivity
    contentFilters := b.contentFilters }

/-- The inner content-filters spread of getMergedPreferences:
keys present in the session filters override, field by field; a session
object without a contentFilters key leaves the persisted filters intact. -/
def mergeContentFilters (persisted : ApiContentFilters) :
    Option FiltersOverlay → ApiContentFilters
  | none => persisted
  | some o =>
    { includedTopics := o.includedTopics.getD persisted.includedTopics
      excludedTopics := o.excludedTopics.getD persisted.excludedTopics
      includedPeople := o.includedPeople.getD persisted.includedPeople
      excludedPeople := o.excludedPeople.getD persisted.excludedPeople
      includedOrganizations :=
        o.includedOrganizations.getD persisted.includedOrganizations
      excludedOrganizations :=
        o.excludedOrganizations.getD persisted.excludedOrganizations }

/-- The object spread performed by getMergedPreferences when a session entry
is present: top-level keys of the stored session object (its preference keys
and its timestamp key) override the persisted object, and the contentFilters
key is then overwritten with the field-by-field filter merge. -/
def mergeWithSession (b : BaseUserPreferences) (e : SessionEntry) : MergedPreferences :=
  { perspective := e.prefs.perspective.getD b.perspective
    tone := e.prefs.tone.getD b.tone
    language := e.prefs.language.getD b.language
    aiModel := e.prefs.aiModel.getD b.aiModel
    factCheckingEnabled := e.prefs.factCheckingEnabled.getD b.factCheckingEnabled
    propagandaDetectionEnabled :=
      e.prefs.propagandaDetectionEnabled.getD b.propagandaDetectionEnabled
    propagandaSensitivity := e.prefs.propagandaSensitivity.getD b.propagandaSensitivity
    contentFilters := mergeContentFilters b.contentFilters e.prefs.contentFilters
    timestamp := some e.timestamp }

/-- Output of getMergedPreferences: the envelope plus the resulting persistent
store, session store, and repository-call trace. -/
structure MergedOutput where
  result : ServiceResult MergedPreferences
  store : Store
  sessions : SessionStore
  trace : List RepoCall
deriving Repr

/-- Embedding of UserPreferencesService.getMergedPreferences: get-or-create
the persisted preferences, then merge a present, unexpired session overlay
over them (shallow for top-level keys, field-by-field for contentFilters).
The source guards the merge with the truthiness test if (sessionId), so a
missing session id (none) and the falsy empty string both skip the session
lookup entirely. -/
def getMergedPreferences (store : Store) (sessions : SessionStore)
    (userId : String) (sessionId : Option String) (now : Nat) : MergedOutput :=
  let userResult := Service.getOrCreateUserPreferences store userId
  match userResult.result.data, userResult.result.success with
  | some base, true =>
    (match sessionId with
     | some sid =>
       if sid == "" then
         { result :=
             { success := true
               data := some (plainMerged base)
               message := some "Preferences retrieved and merged successfully" }
           store := userResult.store
           sessions := sessions
           trace := userResult.trace }
       else
       match getSessionPreferences sessions sid now with
       | (some e, sessions2) =>
         { result :=
             { success := true
               data := some (mergeWithSession base e)
               message := some "Preferences retrieved and merged successfully" }
           store := userResult.store
           sessions := sessions2
           trace := userResult.trace }
       | (none, sessions2) =>
         { result :=
             { success := true
               data := some (plainMerged base)
               message := some "Preferences retrieved and merged successfully" }
           store := userResult.store
           sessions := sessions2
           trace := userResult.trace }
     | none =>
       { result :=
           { success := true
             data := some (plainMerged base)
             message := some "Preferences retrieved and merged successfully" }
         store := userResult.store
         sessions := sessions
         trace := userResult.trace })
  | _, _ =>
    { result :=
        { success := userResult.result.success
          data := userResult.result.data.map plainMerged
          errors := userResult.result.errors
          message := userResult.result.message }
      store := userResult.store
      sessions := sessions
      trace := userResult.trace }

end Service

namespace Migration

/-- Migration result envelope {success, affectedUsers, errors, details?},
parametrised by the per-operation detail shape (an any-array in the source). -/
structure MigrationResult (δ : Type) where
  success : Bool
  affectedUsers : Nat
  errors : List String
  details : Option (List δ) := none
deriving DecidableEq, Repr

/-- Output of a migration operation: the result envelope, the resulting
store, the number of bulkUpdatePreferences invocations (including ones that
threw), and the total number of rows the bulk updates actually changed. -/
structure MigrationOutput (δ : Type) where
  result : MigrationResult δ
  store : Store
  bulkCalls : Nat
  updatedRows : Nat
deriving Repr

/-- Partition of the affected list into the batches visited by the loop
for (let i = 0; i < n; i += batchSize): used only for batchSize at least 1,
where each step takes the slice [i, i + batchSize).  For batchSize = 0 the
source loop never terminates (see migrationLoopIndex below); the value this
total function returns for batchSize = 0 is a modelling artifact no theorem
relies on. -/
def chunkList (batchSize : Nat) : (l : List α) → List (List α)
  | [] => []
  | a :: l => ((a :: l).take batchSize) :: chunkList batchSize (l.drop (batchSize - 1))
termination_by l => l.length
decreasing_by
  simp [List.length_drop]
  omega

/-- Accumulated state of the live batch loop. -/
structure BatchesOutcome where
  migratedCount : Nat
  errors : List String
  store : Store
  bulkCalls : Nat
  updatedRows : Nat
deriving Repr

/-- The live batch loop shared by the bulk migration operations: for the
batch with zero-based index k (loop start index i = k * batchSize, reported
as batch number i / batchSize + 1 = k + 1), it maps the batch to bulk-update
entries and calls bulkUpdatePreferences; a throwing call (oracle fails k)
rolls its transaction back, appends one error naming the batch number, and
does not stop the remaining batches; a successful call adds the full batch
length to migratedCount.  The error string of the source interpolates the
caught error after the batch number; the model keeps the prefix and the batch
number. -/
def runBatches (fails : Nat → Bool) (errLabel : String)
    (mk : α → Repo.BulkUpdateEntry) (store : Store) (k : Nat) :
    List (List α) → BatchesOutcome
  | [] =>
    { migratedCount := 0, errors := [], store := store, bulkCalls := 0, updatedRows := 0 }
  | batch :: rest =>
    if fails k then
      let out := runBatches fails errLabel mk store (k + 1) rest
      { migratedCount := out.migratedCount
        errors := (errLabel ++ toString (k + 1)) :: out.errors
        store := out.store
        bulkCalls := out.bulkCalls + 1
        updatedRows := out.updatedRows }
    else
      let step := Repo.bulkUpdatePreferences store (batch.map mk)
      let out := runBatches fails errLabel mk step.2 (k + 1) rest
      { migratedCount := batch.length + out.migratedCount
        errors := out.errors
        store := out.store
        bulkCalls := out.bulkCalls + 1
        updatedRows := step.1.length + out.updatedRows }

/-- Error label of the migratePerspective / migrateTone / migrateAIModel /
migrateFactChecking batch failure message. -/
def migrateErrLabel : String := "Failed to migrate batch "

/-- Error label of the resetToDefaults batch failure message. -/
def resetErrLabel : String := "Failed to reset batch "

/-- Dry-run detail entry of migratePerspective. -/
structure PerspectiveDetail where
  userId : String
  currentPerspective : String
  newPerspective : String
deriving DecidableEq, Repr

/-- Embedding of PreferenceMigrationUtilities.migratePerspective.  The
environment behaviour (which bulkUpdatePreferences calls throw) is the
oracle argument fails, indexed by zero-based batch ordinal. -/
def migratePerspective (store : Store) (fromPerspective toPerspective : String)
    (dryRun : Bool) (batchSize : Nat) (fails : Nat → Bool) :
    MigrationOutput PerspectiveDetail :=
  let usersToMigrate := Repo.getUsersByPerspective store fromPerspective
  if dryRun then
    { result :=
        { success := true
          affectedUsers := usersToMigrate.length
          errors := []
          details := some (usersToMigrate.map (fun u =>
            { userId := u.user_id
              currentPerspective := u.perspective
              newPerspective := toPerspective })) }
      store := store
      bulkCalls := 0
      updatedRows := 0 }
  else
    let out := runBatches fails migrateErrLabel
      (fun u => { userId := u.user_id
                  preferences := { perspective := some toPerspective } })
      store 0 (chunkList batchSize usersToMigrate)
    { result :=
        { success := out.errors.isEmpty
          affectedUsers := out.migratedCount
          errors := out.errors }
      store := out.store
      bulkCalls := out.bulkCalls
      updatedRows := out.updatedRows }

/-- The all-defaults update object resetToDefaults writes. -/
def defaultPreferencesUpdate : UpdateUserPreferencesInput :=
  { perspective := some "neutral"
    tone := some "professional"
    language := some "en"
    ai_model := some "openai"
    fact_checking_enabled := some true
    propaganda_detection_enabled := some true
    propaganda_sensitivity := some "medium" }

/-- Dry-run detail entry of resetToDefaults. -/
structure ResetDetail where
  userId : String
  newPreferences : UpdateUserPreferencesInput
deriving DecidableEq, Repr

/-- Embedding of PreferenceMigrationUtilities.resetToDefaults. -/
def resetToDefaults (store : Store) (userIds : List String)
    (dryRun : Bool) (batchSize : Nat) (fails : Nat → Bool) :
    MigrationOutput ResetDetail :=
  if dryRun then
    { result :=
        { success := true
          affectedUsers := userIds.length
          errors := []
          details := some (userIds.map (fun uid =>
            { userId := uid, newPreferences := defaultPreferencesUpdate })) }
      store := store
      bulkCalls := 0
      updatedRows := 0 }
  else
    let out := runBatches fails resetErrLabel
      (fun uid => { userId := uid, preferences := defaultPreferencesUpdate })
      store 0 (chunkList batchSize userIds)
    { result :=
        { success := out.errors.isEmpty
          affectedUsers := out.migratedCount
          errors := out.errors }
      store := out.store
      bulkCalls := out.bulkCalls
      updatedRows := out.updatedRows }

/-- Value of the loop counter i of the migration batch loop
for (let i = 0; i < n; i += batchSize) after k increments; batchSize is an
integer because JS callers can pass zero or negative batch sizes. -/
def migrationLoopIndex (batchSize : Int) (k : Nat) : Int :=
  k * batchSize

/-- Termination of the migration batch loop over an affected list of length
n: some number of increments drives the counter past n. -/
def migrationLoopTerminates (n : Nat) (batchSize : Int) : Prop :=
  ∃ k : Nat, (n : Int) ≤ migrationLoopIndex batchSize k

end Migration

/-- Looking up a session id right after erasing it finds nothing. -/
theorem sessionLookup_sessionErase (s : SessionStore) (sid : String) :
    sessionLookup (sessionErase s sid) sid = none := by
  induction s with
  | nil => rfl
  | cons p rest ih =>
    by_cases h : p.1 = sid
    · simpa [sessionErase, List.filter_cons, h] using ih
    · have h2 : (sid == p.1) = false := by
        simp [beq_iff_eq]
        exact fun hc => h hc.symm
      simpa [sessionErase, List.filter_cons, h, sessionLookup, List.lookup, h2]
        using ih

/-- Looking up a session id right after setting it returns the new entry. -/
theorem sessionLookup_sessionSet (s : SessionStore) (sid : String) (e : SessionEntry) :
    sessionLookup (sessionSet s sid e) sid = some e := by
  simp [sessionLookup, sessionSet, List.lookup]

/-- C5: storing a partial preference object P under a session id and reading
it back at the same instant returns the stored object, which carries all
fields of P together with the creation timestamp; reading at any instant
whose age exceeds 60 minutes (3 600 000 ms) returns null and evicts the
entry from the in-memory store. -/
theorem session_roundtrip_and_expiry (s : SessionStore) (sid : String)
    (P : PrefsOverlay) (t0 : Nat) :
    (getSessionPreferences (storeSessionPreferences s sid P t0) sid t0).1 =
      some { prefs := P, timestamp := t0 } ∧
    (∀ now : Nat, now - t0 > 60 * 60 * 1000 →
      (getSessionPreferences (storeSessionPreferences s sid P t0) sid now).1 = none ∧
      sessionLookup
        ((getSessionPreferences (storeSessionPreferences s sid P t0) sid now).2) sid =
        none) := by
  constructor
  · simp [getSessionPreferences, storeSessionPreferences, sessionLookup_sessionSet,
      sessionTTL]
  · intro now hnow
    have hgt : now - t0 > sessionTTL := by
      simpa [sessionTTL] using hnow
    constructor
    · simp [getSessionPreferences, storeSessionPreferences, sessionLookup_sessionSet,
        hgt]
    · simp [getSessionPreferences, storeSessionPreferences, sessionLookup_sessionSet,
        hgt, sessionLookup_sessionErase]

/-- Witness for session_roundtrip_and_expiry at a concrete store, session id,
overlay and clock values. -/
theorem session_roundtrip_and_expiry_witness :
    (getSessionPreferences
        (storeSessionPreferences [] "S1" { tone := some "casual" } 5) "S1" 5).1 =
      some { prefs := { tone := some "casual" }, timestamp := 5 } ∧
    (getSessionPreferences
        (storeSessionPreferences [] "S1" { tone := some "casual" } 5) "S1"
        (5 + 61 * 60 * 1000)).1 = none := by
  have h := session_roundtrip_and_expiry [] "S1" { tone := some "casual" } 5
  exact ⟨h.1, (h.2 (5 + 61 * 60 * 1000) (by norm_num)).1⟩

/-- C9: over a non-empty affected list the migration batch loop
for (let i = 0; i < n; i += batchSize) terminates exactly when the
caller-supplied batch size is at least 1; with a zero or negative batch size
the counter never passes the list length. -/
theorem migration_loop_terminates_iff (n : Nat) (batchSize : Int) (hn : 1 ≤ n) :
    Migration.migrationLoopTerminates n batchSize ↔ 1 ≤ batchSize := by
  constructor
  · rintro ⟨k, hk⟩
    by_contra h
    push_neg at h
    have hB : batchSize ≤ 0 := by omega
    have hk0 : (0 : Int) ≤ (k : Int) := Int.natCast_nonneg k
    have hprod : (k : Int) * batchSize ≤ 0 := mul_nonpos_iff.mpr (Or.inl ⟨hk0, hB⟩)
    have hn1 : (1 : Int) ≤ (n : Int) := by exact_mod_cast hn
    have hk2 : (n : Int) ≤ (k : Int) * batchSize := hk
    linarith
  · intro hB
    refine ⟨n, ?_⟩
    have h0 : (0 : Int) ≤ (n : Int) := Int.natCast_nonneg n
    calc (n : Int) = (n : Int) * 1 := by ring
    _ ≤ (n : Int) * batchSize := by
        exact mul_le_mul_of_nonneg_left hB h0
    _ = Migration.migrationLoopIndex batchSize n := by
        simp [Migration.migrationLoopIndex, mul_comm]

/-- Witness for migration_loop_terminates_iff with a one-element list and the
default batch size direction instantiated at batch size 1. -/
theorem migration_loop_terminates_iff_witness :
    Migration.migrationLoopTerminates 1 1 ↔ (1 : Int) ≤ 1 :=
  migration_loop_terminates_iff 1 1 (by decide)

/-- C10: when a user has a preferences row but no content_filters row,
getUserPreferences succeeds and its data carries a contentFilters sub-object
whose six fields are all present as empty arrays. -/
theorem getUserPreferences_missing_filters_defaults
    (store : Store) (userId : String) (row : UserPreferencesRow)
    (huid : userId ≠ "")
    (hrow : Repo.getUserPreferences store userId = some row)
    (hfil : Repo.getUserContentFilters store userId = none) :
    (Service.getUserPreferences store userId).result.success = true ∧
    (Service.getUserPreferences store userId).result.data =
      some { perspective := row.perspective
             tone := row.tone
             language := row.language
             aiModel := row.ai_model
             factCheckingEnabled := row.fact_checking_enabled
             propagandaDetectionEnabled := row.propaganda_detection_enabled
             propagandaSensitivity := row.propaganda_sensitivity
             contentFilters :=
               { includedTopics := []
                 excludedTopics := []
                 includedPeople := []
                 excludedPeople := []
                 includedOrganizations := []
                 excludedOrganizations := [] } } := by
  have hbeq : (userId == "") = false := by
    simp [beq_iff_eq]
    exact huid
  constructor <;>
    simp [Service.getUserPreferences, Repo.getCompleteUserPreferences, hbeq, hrow,
      hfil, Service.convertToApiFormat, Service.emptyApiFilters]

/-- Witness for getUserPreferences_missing_filters_defaults: a store holding
one preferences row and no filters row for user u1. -/
theorem getUserPreferences_missing_filters_defaults_witness :
    (Service.getUserPreferences
        { preferences := [{ user_id := "u1", perspective := "neutral",
                            tone := "formal", language := "en", ai_model := "openai",
                            fact_checking_enabled := true,
                            propaganda_detection_enabled := true,
                            propaganda_sensitivity := "medium" }]
          contentFilters := [] } "u1").result.data =
      some { perspective := "neutral"
             tone := "formal"
             language := "en"
             aiModel := "openai"
             factCheckingEnabled := true
             propagandaDetectionEnabled := true
             propagandaSensitivity := "medium"
             contentFilters :=
               { includedTopics := []
                 excludedTopics := []
                 includedPeople := []
                 excludedPeople := []
                 includedOrganizations := []
                 excludedOrganizations := [] } } :=
  (getUserPreferences_missing_filters_defaults
    { preferences := [{ user_id := "u1", perspective := "neutral",
                        tone := "formal", language := "en", ai_model := "openai",
                        fact_checking_enabled := true,
                        propaganda_detection_enabled := true,
                        propaganda_sensitivity := "medium" }]
      contentFilters := [] } "u1"
    { user_id := "u1", perspective := "neutral", tone := "formal", language := "en",
      ai_model := "openai", fact_checking_enabled := true,
      propaganda_detection_enabled := true, propaganda_sensitivity := "medium" }
    (by decide) (by simp [Repo.getUserPreferences]) rfl).2

/-- C7: every public service operation taking a user identifier rejects the
empty identifier with exactly the single field-tagged validation error and an
empty repository-call trace (no store read or write), leaving the store
untouched. -/
theorem empty_userId_single_error_no_store_access (store : Store)
    (pIn : UpdateUserPreferencesInput) (fIn : UpdateContentFiltersInput)
    (uPrefs : UpdateUserPreferencesInput) (uFilters : UpdateContentFiltersInput)
    (v : String) :
    Service.getUserPreferences store "" =
      { result := { success := false, errors := [Service.userIdError] },
        store := store, trace := [] } ∧
    Service.createUserPreferences store "" pIn fIn =
      { result := { success := false, errors := [Service.userIdError] },
        store := store, trace := [] } ∧
    Service.updateUserPreferences store "" uPrefs =
      { result := { success := false, errors := [Service.userIdError] },
        store := store, trace := [] } ∧
    Service.updateUserContentFilters store "" uFilters =
      { result := { success := false, errors := [Service.userIdError] },
        store := store, trace := [] } ∧
    Service.deleteUserPreferences store "" =
      { result := { success := false, errors := [Service.userIdError] },
        store := store, trace := [] } ∧
    Service.updatePerspective store "" v =
      { result := { success := false, errors := [Service.userIdError] },
        store := store, trace := [] } ∧
    Service.updateTone store "" v =
      { result := { success := false, errors := [Service.userIdError] },
        store := store, trace := [] } ∧
    Service.updateLanguage store "" v =
      { result := { success := false, errors := [Service.userIdError] },
        store := store, trace := [] } ∧
    Service.updateAIModel store "" v =
      { result := { success := false, errors := [Service.userIdError] },
        store := store, trace := [] } := by
  refine ⟨?_, ?_, ?_, ?_, ?_, ?_, ?_, ?_, ?_⟩ <;>
    simp [Service.getUserPreferences, Service.createUserPreferences,
      Service.updateUserPreferences, Service.updateUserContentFilters,
      Service.deleteUserPreferences, Service.updatePerspective, Service.updateTone,
      Service.updateLanguage, Service.updateAIModel]

/-- After the transactional create, the existence check sees the new
preferences row. -/
theorem hasUserPreferences_after_create (store : Store) (userId : String)
    (pIn : UpdateUserPreferencesInput) (fIn : UpdateContentFiltersInput) :
    Repo.hasUserPreferences
      (Repo.createCompleteUserPreferences store userId pIn fIn).2 userId = true := by
  simp only [Repo.hasUserPreferences, Repo.createCompleteUserPreferences,
    Repo.getUserPreferences]
  induction store.preferences with
  | nil => simp [Repo.newPreferencesRow]
  | cons r rest ih =>
    by_cases h : r.user_id == userId
    · simp [List.find?, h]
    · simpa [List.find?, h] using ih

/-- C4: for a non-empty user id (and inputs that pass validation), a second
sequential createUserPreferences call fails with the single conflict error
scoped to the userId field, and it leaves the store exactly as the first call
left it. -/
theorem createUserPreferences_twice_conflict (store : Store) (userId : String)
    (pIn : UpdateUserPreferencesInput) (fIn : UpdateContentFiltersInput)
    (huid : userId ≠ "")
    (hval : Service.validateUserPreferences pIn = []) :
    (Service.createUserPreferences
        (Service.createUserPreferences store userId pIn fIn).store
        userId pIn fIn).result.success = false ∧
    (Service.createUserPreferences
        (Service.createUserPreferences store userId pIn fIn).store
        userId pIn fIn).result.errors =
      [{ field := "userId", message := "User preferences already exist" }] ∧
    (Service.createUserPreferences
        (Service.createUserPreferences store userId pIn fIn).store
        userId pIn fIn).store =
      (Service.createUserPreferences store userId pIn fIn).store := by
  have hbeq : (userId == "") = false := by
    simp [beq_iff_eq]
    exact huid
  have hstore1 : Repo.hasUserPreferences
      (Service.createUserPreferences store userId pIn fIn).store userId = true := by
    by_cases hhas : Repo.hasUserPreferences store userId
    · simp [Service.createUserPreferences, hbeq, hhas]
    · simp [Service.createUserPreferences, hbeq, hhas, hval,
        Service.validateContentFilters, hasUserPreferences_after_create]
  have key : ∀ s : Store, Repo.hasUserPreferences s userId = true →
      (Service.createUserPreferences s userId pIn fIn).result.success = false ∧
      (Service.createUserPreferences s userId pIn fIn).result.errors =
        [{ field := "userId", message := "User preferences already exist" }] ∧
      (Service.createUserPreferences s userId pIn fIn).store = s := by
    intro s hs
    refine ⟨?_, ?_, ?_⟩ <;> simp [Service.createUserPreferences, hbeq, hs]
  exact ⟨(key _ hstore1).1, (key _ hstore1).2.1, (key _ hstore1).2.2⟩

/-- Witness for createUserPreferences_twice_conflict: user u1, empty store,
all-default (empty) creation inputs. -/
theorem createUserPreferences_twice_conflict_witness :
    ("u1" ≠ "" ∧ Service.validateUserPreferences {} = []) ∧
    (Service.createUserPreferences
        (Service.createUserPreferences { preferences := [], contentFilters := [] }
          "u1" {} {}).store "u1" {} {}).result.success = false ∧
    (Service.createUserPreferences
        (Service.createUserPreferences { preferences := [], contentFilters := [] }
          "u1" {} {}).store "u1" {} {}).result.errors =
      [{ field := "userId", message := "User preferences already exist" }] := by
  have h := createUserPreferences_twice_conflict
    { preferences := [], contentFilters := [] } "u1" {} {}
    (by decide) (by rfl)
  exact ⟨⟨by decide, by rfl⟩, h.1, h.2.1⟩

/-- When the user already has a preferences row, getOrCreateUserPreferences
is the plain read: it returns the converted persisted record and leaves the
store alone. -/
theorem getOrCreateUserPreferences_existing (store : Store) (userId : String)
    (row : UserPreferencesRow)
    (huid : userId ≠ "")
    (hrow : Repo.getUserPreferences store userId = some row) :
    Service.getOrCreateUserPreferences store userId =
      { result :=
          { success := true
            data := Service.convertToApiFormat (some row)
                      (Repo.getUserContentFilters store userId)
            message := some "User preferences retrieved successfully" }
        store := store
        trace := [.getComplete] } := by
  have hbeq : (userId == "") = false := by
    simp [beq_iff_eq]
    exact huid
  simp [Service.getOrCreateUserPreferences, Service.getUserPreferences,
    Repo.getCompleteUserPreferences, hbeq, hrow, Service.convertToApiFormat]

/-- C1 (amended): for a user with persisted preferences and a present,
unexpired session overlay under a non-empty session id (the source's
truthiness guard if (sessionId) skips the merge for the falsy empty string),
getMergedPreferences returns the persisted record with the overlay's present
top-level fields shallow-merged over it and the contentFilters sub-object
merged field by field: an overlay filter field replaces only that field,
persisted filter fields absent from the overlay are kept, and an overlay
without a contentFilters key leaves the persisted filters untouched (never a
wholesale replacement). -/
theorem getMergedPreferences_two_tier_merge (store : Store)
    (sessions : SessionStore) (userId sid : String) (row : UserPreferencesRow)
    (e : SessionEntry) (now : Nat)
    (huid : userId ≠ "")
    (hsid : sid ≠ "")
    (hrow : Repo.getUserPreferences store userId = some row)
    (hsess : sessionLookup sessions sid = some e)
    (hfresh : now - e.timestamp ≤ 60 * 60 * 1000) :
    (Service.getMergedPreferences store sessions userId (some sid) now).result.data =
      (Service.convertToApiFormat (some row)
          (Repo.getUserContentFilters store userId)).map
        (fun base =>
          { perspective := e.prefs.perspective.getD base.perspective
            tone := e.prefs.tone.getD base.tone
            language := e.prefs.language.getD base.language
            aiModel := e.prefs.aiModel.getD base.aiModel
            factCheckingEnabled :=
              e.prefs.factCheckingEnabled.getD base.factCheckingEnabled
            propagandaDetectionEnabled :=
              e.prefs.propagandaDetectionEnabled.getD base.propagandaDetectionEnabled
            propagandaSensitivity :=
              e.prefs.propagandaSensitivity.getD base.propagandaSensitivity
            contentFilters :=
              { includedTopics :=
                  (e.prefs.contentFilters.bind (fun o => o.includedTopics)).getD
                    base.contentFilters.includedTopics
                excludedTopics :=
                  (e.prefs.contentFilters.bind (fun o => o.excludedTopics)).getD
                    base.contentFilters.excludedTopics
                includedPeople :=
                  (e.prefs.contentFilters.bind (fun o => o.includedPeople)).getD
                    base.contentFilters.includedPeople
                excludedPeople :=
                  (e.prefs.contentFilters.bind (fun o => o.excludedPeople)).getD
                    base.contentFilters.excludedPeople
                includedOrganizations :=
                  (e.prefs.contentFilters.bind (fun o => o.includedOrganizations)).getD
                    base.contentFilters.includedOrganizations
                excludedOrganizations :=
                  (e.prefs.contentFilters.bind (fun o => o.excludedOrganizations)).getD
                    base.contentFilters.excludedOrganizations }
            timestamp := some e.timestamp }) := by
  have hfresh2 : ¬ (now - e.timestamp > sessionTTL) := by
    simp only [sessionTTL]
    omega
  have hsbeq : (sid == "") = false := by
    simp [beq_iff_eq]
    exact hsid
  cases hcf : e.prefs.contentFilters with
  | none =>
    simp [Service.getMergedPreferences,
      getOrCreateUserPreferences_existing store userId row huid hrow,
      getSessionPreferences, hsess, hfresh2, hsbeq, Service.convertToApiFormat,
      Service.mergeWithSession, Service.mergeContentFilters, hcf]
  | some o =>
    simp [Service.getMergedPreferences,
      getOrCreateUserPreferences_existing store userId row huid hrow,
      getSessionPreferences, hsess, hfresh2, hsbeq, Service.convertToApiFormat,
      Service.mergeWithSession, Service.mergeContentFilters, hcf]

/-- Sample persisted preferences row for the merge witnesses. -/
def sampleRow : UserPreferencesRow :=
  { user_id := "u1"
    perspective := "neutral"
    tone := "formal"
    language := "en"
    ai_model := "openai"
    fact_checking_enabled := true
    propaganda_detection_enabled := true
    propaganda_sensitivity := "medium" }

/-- Sample store: user u1 with tone formal and includedTopics = [a]. -/
def sampleStore : Store :=
  { preferences := [sampleRow]
    contentFilters :=
      [{ user_id := "u1"
         included_topics := ["a"]
         excluded_topics := []
         included_people := []
         excluded_people := []
         included_organizations := []
         excluded_organizations := [] }] }

/-- Sample session entry: tone casual, excludedPeople = [b], stored at 0 ms. -/
def sampleEntry : SessionEntry :=
  { prefs :=
      { tone := some "casual"
        contentFilters := some { excludedPeople := some ["b"] } }
    timestamp := 0 }

/-- Sample session store holding sampleEntry under session id S1. -/
def sampleSessions : SessionStore := [("S1", sampleEntry)]

/-- Witness for getMergedPreferences_two_tier_merge: persisted tone formal
with overlay tone casual yields tone casual, and persisted
includedTopics = [a] with overlay excludedPeople = [b] yields a result
carrying both. -/
theorem getMergedPreferences_two_tier_merge_witness :
    (Service.getMergedPreferences sampleStore sampleSessions "u1" (some "S1")
        0).result.data =
      some { perspective := "neutral"
             tone := "casual"
             language := "en"
             aiModel := "openai"
             factCheckingEnabled := true
             propagandaDetectionEnabled := true
             propagandaSensitivity := "medium"
             contentFilters :=
               { includedTopics := ["a"]
                 excludedTopics := []
                 includedPeople := []
                 excludedPeople := ["b"]
                 includedOrganizations := []
                 excludedOrganizations := [] }
             timestamp := some 0 } := by
  have h := getMergedPreferences_two_tier_merge sampleStore sampleSessions "u1" "S1"
    sampleRow sampleEntry 0 (by decide) (by decide)
    (by simp [sampleStore, Repo.getUserPreferences, sampleRow])
    (by simp [sampleSessions, sessionLookup, List.lookup])
    (by simp [sampleEntry])
  simpa [sampleStore, sampleRow, sampleEntry, Service.convertToApiFormat,
    Repo.getUserContentFilters] using h

/-- C8 (amended): because the stored session object carries the timestamp
key added by storeSessionPreferences and is spread wholesale into the merged
result, the data returned by getMergedPreferences for a present, unexpired
overlay under a non-empty session id (the source's truthiness guard skips
the merge for the falsy empty string) has an extra top-level timestamp key
equal to the overlay's creation time. -/
theorem getMergedPreferences_has_timestamp_key (store : Store)
    (sessions : SessionStore) (userId sid : String) (row : UserPreferencesRow)
    (e : SessionEntry) (now : Nat)
    (huid : userId ≠ "")
    (hsid : sid ≠ "")
    (hrow : Repo.getUserPreferences store userId = some row)
    (hsess : sessionLookup sessions sid = some e)
    (hfresh : now - e.timestamp ≤ 60 * 60 * 1000) :
    ((Service.getMergedPreferences store sessions userId
        (some sid) now).result.data).map MergedPreferences.timestamp =
      some (some e.timestamp) := by
  have hfresh2 : ¬ (now - e.timestamp > sessionTTL) := by
    simp only [sessionTTL]
    omega
  have hsbeq : (sid == "") = false := by
    simp [beq_iff_eq]
    exact hsid
  simp [Service.getMergedPreferences,
    getOrCreateUserPreferences_existing store userId row huid hrow,
    getSessionPreferences, hsess, hfresh2, hsbeq, Service.convertToApiFormat,
    Service.mergeWithSession]

/-- Witness for getMergedPreferences_has_timestamp_key on the sample store
and session. -/
theorem getMergedPreferences_has_timestamp_key_witness :
    ((Service.getMergedPreferences sampleStore sampleSessions "u1"
        (some "S1") 0).result.data).map MergedPreferences.timestamp =
      some (some 0) :=
  getMergedPreferences_has_timestamp_key sampleStore sampleSessions "u1" "S1"
    sampleRow sampleEntry 0 (by decide) (by decide)
    (by simp [sampleStore, Repo.getUserPreferences, sampleRow])
    (by simp [sampleSessions, sessionLookup, List.lookup])
    (by simp [sampleEntry])

/-- Counterexample to C1 as stated: an overlay with tone casual stored under
the empty session id is present and unexpired (first conjunct), yet
getMergedPreferences called with that id returns the persisted record
unmerged — tone stays formal and no timestamp key appears — because the
source's if (sessionId) guard treats the empty string as falsy. -/
theorem getMergedPreferences_empty_sid_skips_merge :
    (getSessionPreferences
        (storeSessionPreferences [] "" { tone := some "casual" } 0) "" 0).1 =
      some { prefs := { tone := some "casual" }, timestamp := 0 } ∧
    (Service.getMergedPreferences sampleStore
        (storeSessionPreferences [] "" { tone := some "casual" } 0)
        "u1" (some "") 0).result.data =
      some { perspective := "neutral"
             tone := "formal"
             language := "en"
             aiModel := "openai"
             factCheckingEnabled := true
             propagandaDetectionEnabled := true
             propagandaSensitivity := "medium"
             contentFilters :=
               { includedTopics := ["a"]
                 excludedTopics := []
                 includedPeople := []
                 excludedPeople := []
                 includedOrganizations := []
                 excludedOrganizations := [] }
             timestamp := none } := by
  constructor
  · simp [getSessionPreferences, storeSessionPreferences, sessionLookup_sessionSet,
      sessionTTL]
  · have hoc := getOrCreateUserPreferences_existing sampleStore "u1" sampleRow
      (by decide) (by simp [sampleStore, Repo.getUserPreferences, sampleRow])
    simp only [Service.getMergedPreferences, hoc, Service.convertToApiFormat]
    simp [Service.plainMerged, sampleStore, sampleRow, Repo.getUserContentFilters]

/-- Counterexample to C8 as stated: with the same present, unexpired overlay
stored under the empty session id, the merged result carries no timestamp
key (the data's timestamp field is none), because the falsy empty session id
skips the spread of the stored session object entirely. -/
theorem getMergedPreferences_empty_sid_no_timestamp_key :
    (getSessionPreferences
        (storeSessionPreferences [] "" { tone := some "casual" } 0) "" 0).1 =
      some { prefs := { tone := some "casual" }, timestamp := 0 } ∧
    ((Service.getMergedPreferences sampleStore
        (storeSessionPreferences [] "" { tone := some "casual" } 0)
        "u1" (some "") 0).result.data).map MergedPreferences.timestamp =
      some none := by
  constructor
  · simp [getSessionPreferences, storeSessionPreferences, sessionLookup_sessionSet,
      sessionTTL]
  · have hoc := getOrCreateUserPreferences_existing sampleStore "u1" sampleRow
      (by decide) (by simp [sampleStore, Repo.getUserPreferences, sampleRow])
    simp only [Service.getMergedPreferences, hoc, Service.convertToApiFormat]
    simp [Service.plainMerged]

/-- The batch loop calls bulkUpdatePreferences once per batch, throwing
batches included. -/
theorem runBatches_bulkCalls {α : Type} (fails : Nat → Bool) (errLabel : String)
    (mk : α → Repo.BulkUpdateEntry) (bs : List (List α)) :
    ∀ (store : Store) (k : Nat),
      (Migration.runBatches fails errLabel mk store k bs).bulkCalls = bs.length := by
  induction bs with
  | nil => intro store k; rfl
  | cons b rest ih =>
    intro store k
    by_cases h : fails k <;> simp [Migration.runBatches, h, ih]

/-- The batch loop records exactly one error per throwing batch, labelled
with that batch's one-based number. -/
theorem runBatches_errors {α : Type} (fails : Nat → Bool) (errLabel : String)
    (mk : α → Repo.BulkUpdateEntry) (bs : List (List α)) :
    ∀ (store : Store) (k : Nat),
      (Migration.runBatches fails errLabel mk store k bs).errors =
        (bs.enumFrom k).filterMap
          (fun p => if fails p.1 then some (errLabel ++ toString (p.1 + 1)) else none) := by
  induction bs with
  | nil => intro store k; rfl
  | cons b rest ih =>
    intro store k
    by_cases h : fails k <;> simp [Migration.runBatches, h, ih, List.enumFrom]

/-- The batch loop counts the full size of each non-throwing batch and
nothing for a throwing batch. -/
theorem runBatches_migratedCount {α : Type} (fails : Nat → Bool) (errLabel : String)
    (mk : α → Repo.BulkUpdateEntry) (bs : List (List α)) :
    ∀ (store : Store) (k : Nat),
      (Migration.runBatches fails errLabel mk store k bs).migratedCount =
        ((bs.enumFrom k).map (fun p => if fails p.1 then 0 else p.2.length)).sum := by
  induction bs with
  | nil => intro store k; rfl
  | cons b rest ih =>
    intro store k
    by_cases h : fails k <;> simp [Migration.runBatches, h, ih, List.enumFrom]

/-- For batch sizes of at least 1, the number of batches the loop visits is
the ceiling of the list length over the batch size. -/
theorem chunkList_length {α : Type} (batchSize : Nat) (hB : 1 ≤ batchSize) :
    ∀ (l : List α), (Migration.chunkList batchSize l).length =
      (l.length + batchSize - 1) / batchSize := by
  intro l
  generalize hn : l.length = n
  induction n using Nat.strong_induction_on generalizing l with
  | _ n ih =>
    match l with
    | [] =>
      simp only [List.length_nil] at hn
      subst hn
      simp only [Migration.chunkList, List.length_nil]
      rw [Nat.div_eq_of_lt (by omega)]
    | a :: t =>
      simp only [List.length_cons] at hn
      have hd : (t.drop (batchSize - 1)).length < n := by
        simp only [List.length_drop]
        omega
      have ihd := ih _ hd (t.drop (batchSize - 1)) rfl
      simp only [Migration.chunkList, List.length_cons, ihd, List.length_drop]
      rcases Nat.lt_or_ge t.length (batchSize - 1) with hc | hc
      · have h1 : t.length - (batchSize - 1) + batchSize - 1 = batchSize - 1 := by omega
        rw [h1, Nat.div_eq_of_lt (by omega)]
        have h3 : n + batchSize - 1 = t.length + batchSize := by omega
        rw [h3, Nat.add_div_right _ (by omega)]
        have h4 : t.length / batchSize = 0 := Nat.div_eq_of_lt (by omega)
        omega
      · have h1 : t.length - (batchSize - 1) + batchSize - 1 = t.length := by omega
        rw [h1]
        have h3 : n + batchSize - 1 = t.length + batchSize := by omega
        rw [h3, Nat.add_div_right _ (by omega)]

/-- C2: in a live migratePerspective run partitioned into batches, success
holds exactly when no batch throws, the error list has exactly one entry per
throwing batch labelled with that batch's number, affectedUsers is the sum of
the sizes of the non-throwing batches only, and every batch is attempted
(one bulk call per batch) regardless of earlier failures. -/
theorem migratePerspective_partial_failure (store : Store)
    (fromPerspective toPerspective : String) (batchSize : Nat) (fails : Nat → Bool)
    (hB : 1 ≤ batchSize) :
    ((Migration.migratePerspective store fromPerspective toPerspective false
        batchSize fails).result.success = true ↔
      ∀ p ∈ (Migration.chunkList batchSize
          (Repo.getUsersByPerspective store fromPerspective)).enumFrom 0,
        fails p.1 = false) ∧
    (Migration.migratePerspective store fromPerspective toPerspective false
        batchSize fails).result.errors =
      ((Migration.chunkList batchSize
          (Repo.getUsersByPerspective store fromPerspective)).enumFrom 0).filterMap
        (fun p => if fails p.1
          then some (Migration.migrateErrLabel ++ toString (p.1 + 1)) else none) ∧
    (Migration.migratePerspective store fromPerspective toPerspective false
        batchSize fails).result.affectedUsers =
      (((Migration.chunkList batchSize
          (Repo.getUsersByPerspective store fromPerspective)).enumFrom 0).map
        (fun p => if fails p.1 then 0 else p.2.length)).sum ∧
    (Migration.migratePerspective store fromPerspective toPerspective false
        batchSize fails).bulkCalls =
      (Migration.chunkList batchSize
        (Repo.getUsersByPerspective store fromPerspective)).length := by
  refine ⟨?_, ?_, ?_, ?_⟩
  · simp only [Migration.migratePerspective, Bool.false_eq_true, if_false,
      runBatches_errors, List.isEmpty_iff, List.filterMap_eq_nil_iff]
    constructor
    · intro h p hp
      have := h p hp
      by_contra hf
      simp [Bool.not_eq_false] at hf
      simp [hf] at this
    · intro h p hp
      simp [h p hp]
  · simp [Migration.migratePerspective, runBatches_errors]
  · simp [Migration.migratePerspective, runBatches_migratedCount]
  · simp [Migration.migratePerspective, runBatches_bulkCalls]

/-- Witness for migratePerspective_partial_failure: three one-user batches
where only batch 2 (zero-based index 1) throws. -/
theorem migratePerspective_partial_failure_witness :
    (1 ≤ 1) ∧
    (Migration.migratePerspective
        { preferences :=
            [{ user_id := "u1", perspective := "liberal", tone := "formal",
               language := "en", ai_model := "openai", fact_checking_enabled := true,
               propaganda_detection_enabled := true, propaganda_sensitivity := "medium" },
             { user_id := "u2", perspective := "liberal", tone := "formal",
               language := "en", ai_model := "openai", fact_checking_enabled := true,
               propaganda_detection_enabled := true, propaganda_sensitivity := "medium" },
             { user_id := "u3", perspective := "liberal", tone := "formal",
               language := "en", ai_model := "openai", fact_checking_enabled := true,
               propaganda_detection_enabled := true, propaganda_sensitivity := "medium" }]
          contentFilters := [] }
        "liberal" "neutral" false 1 (fun k => k == 1)).result.errors =
      [Migration.migrateErrLabel ++ toString 2] ∧
    (Migration.migratePerspective
        { preferences :=
            [{ user_id := "u1", perspective := "liberal", tone := "formal",
               language := "en", ai_model := "openai", fact_checking_enabled := true,
               propaganda_detection_enabled := true, propaganda_sensitivity := "medium" },
             { user_id := "u2", perspective := "liberal", tone := "formal",
               language := "en", ai_model := "openai", fact_checking_enabled := true,
               propaganda_detection_enabled := true, propaganda_sensitivity := "medium" },
             { user_id := "u3", perspective := "liberal", tone := "formal",
               language := "en", ai_model := "openai", fact_checking_enabled := true,
               propaganda_detection_enabled := true, propaganda_sensitivity := "medium" }]
          contentFilters := [] }
        "liberal" "neutral" false 1 (fun k => k == 1)).result.affectedUsers = 2 ∧
    (Migration.migratePerspective
        { preferences :=
            [{ user_id := "u1", perspective := "liberal", tone := "formal",
               language := "en", ai_model := "openai", fact_checking_enabled := true,
               propaganda_detection_enabled := true, propaganda_sensitivity := "medium" },
             { user_id := "u2", perspective := "liberal", tone := "formal",
               language := "en", ai_model := "openai", fact_checking_enabled := true,
               propaganda_detection_enabled := true, propaganda_sensitivity := "medium" },
             { user_id := "u3", perspective := "liberal", tone := "formal",
               language := "en", ai_model := "openai", fact_checking_enabled := true,
               propaganda_detection_enabled := true, propaganda_sensitivity := "medium" }]
          contentFilters := [] }
        "liberal" "neutral" false 1 (fun k => k == 1)).bulkCalls = 3 := by
  have h := migratePerspective_partial_failure
    { preferences :=
        [{ user_id := "u1", perspective := "liberal", tone := "formal",
           language := "en", ai_model := "openai", fact_checking_enabled := true,
           propaganda_detection_enabled := true, propaganda_sensitivity := "medium" },
         { user_id := "u2", perspective := "liberal", tone := "formal",
           language := "en", ai_model := "openai", fact_checking_enabled := true,
           propaganda_detection_enabled := true, propaganda_sensitivity := "medium" },
         { user_id := "u3", perspective := "liberal", tone := "formal",
           language := "en", ai_model := "openai", fact_checking_enabled := true,
           propaganda_detection_enabled := true, propaganda_sensitivity := "medium" }]
      contentFilters := [] }
    "liberal" "neutral" 1 (fun k => k == 1) (by decide)
  refine ⟨by decide, ?_, ?_, ?_⟩
  · rw [h.2.1]
    simp [Repo.getUsersByPerspective, Migration.chunkList, List.enumFrom]
  · rw [h.2.2.1]
    simp [Repo.getUsersByPerspective, Migration.chunkList, List.enumFrom]
  · rw [h.2.2.2]
    simp [Repo.getUsersByPerspective, Migration.chunkList]

/-- C6: a dry-run migration performs no bulk-update call and leaves the
store untouched, returning only the preview (affected count and per-user
before/after details); a live run over N affected users with batch size
B of at least 1 performs exactly ceil(N/B) = (N + B - 1) / B bulk-update
calls.  Stated for the two modelled bulk-update migrations,
migratePerspective and resetToDefaults, which instantiate the shared batch
engine. -/
theorem migration_dryRun_frame_and_live_call_count (store : Store)
    (fromPerspective toPerspective : String) (userIds : List String)
    (batchSize : Nat) (fails : Nat → Bool) (hB : 1 ≤ batchSize) :
    (Migration.migratePerspective store fromPerspective toPerspective true
        batchSize fails).bulkCalls = 0 ∧
    (Migration.migratePerspective store fromPerspective toPerspective true
        batchSize fails).store = store ∧
    (Migration.migratePerspective store fromPerspective toPerspective true
        batchSize fails).result =
      { success := true
        affectedUsers := (Repo.getUsersByPerspective store fromPerspective).length
        errors := []
        details := some ((Repo.getUsersByPerspective store fromPerspective).map
          (fun u => { userId := u.user_id
                      currentPerspective := u.perspective
                      newPerspective := toPerspective })) } ∧
    (Migration.resetToDefaults store userIds true batchSize fails).bulkCalls = 0 ∧
    (Migration.resetToDefaults store userIds true batchSize fails).store = store ∧
    (Migration.resetToDefaults store userIds true batchSize fails).result =
      { success := true
        affectedUsers := userIds.length
        errors := []
        details := some (userIds.map (fun uid =>
          { userId := uid, newPreferences := Migration.defaultPreferencesUpdate })) } ∧
    (Migration.migratePerspective store fromPerspective toPerspective false
        batchSize fails).bulkCalls =
      ((Repo.getUsersByPerspective store fromPerspective).length + batchSize - 1) /
        batchSize ∧
    (Migration.resetToDefaults store userIds false batchSize fails).bulkCalls =
      (userIds.length + batchSize - 1) / batchSize := by
  refine ⟨?_, ?_, ?_, ?_, ?_, ?_, ?_, ?_⟩
  · simp [Migration.migratePerspective]
  · simp [Migration.migratePerspective]
  · simp [Migration.migratePerspective]
  · simp [Migration.resetToDefaults]
  · simp [Migration.resetToDefaults]
  · simp [Migration.resetToDefaults]
  · simp [Migration.migratePerspective, runBatches_bulkCalls,
      chunkList_length batchSize hB]
  · simp [Migration.resetToDefaults, runBatches_bulkCalls,
      chunkList_length batchSize hB]

/-- Witness for migration_dryRun_frame_and_live_call_count: one-user store,
two target user ids, batch size 1. -/
theorem migration_dryRun_frame_and_live_call_count_witness :
    (1 ≤ 1) ∧
    (Migration.migratePerspective
        { preferences :=
            [{ user_id := "u1", perspective := "liberal", tone := "formal",
               language := "en", ai_model := "openai", fact_checking_enabled := true,
               propaganda_detection_enabled := true, propaganda_sensitivity := "medium" }]
          contentFilters := [] }
        "liberal" "neutral" true 1 (fun _ => false)).bulkCalls = 0 ∧
    (Migration.resetToDefaults
        { preferences :=
            [{ user_id := "u1", perspective := "liberal", tone := "formal",
               language := "en", ai_model := "openai", fact_checking_enabled := true,
               propaganda_detection_enabled := true, propaganda_sensitivity := "medium" }]
          contentFilters := [] }
        ["u1", "u2"] false 1 (fun _ => false)).bulkCalls = 2 := by
  have h := migration_dryRun_frame_and_live_call_count
    { preferences :=
        [{ user_id := "u1", perspective := "liberal", tone := "formal",
           language := "en", ai_model := "openai", fact_checking_enabled := true,
           propaganda_detection_enabled := true, propaganda_sensitivity := "medium" }]
      contentFilters := [] }
    "liberal" "neutral" ["u1", "u2"] 1 (fun _ => false) (by decide)
  refine ⟨by decide, h.1, ?_⟩
  rw [h.2.2.2.2.2.2.2]
  decide

/-- C3 counterexample: a live resetToDefaults over the single user id u1
against a store holding no row for u1 reports one affected user even though
zero rows were actually updated and the store is unchanged (the succeeding
batch's full length is counted, not the rows the bulk update modified). -/
theorem resetToDefaults_counts_unmodified_user :
    (Migration.resetToDefaults { preferences := [], contentFilters := [] }
        ["u1"] false 100 (fun _ => false)).result.affectedUsers = 1 ∧
    (Migration.resetToDefaults { preferences := [], contentFilters := [] }
        ["u1"] false 100 (fun _ => false)).updatedRows = 0 ∧
    (Migration.resetToDefaults { preferences := [], contentFilters := [] }
        ["u1"] false 100 (fun _ => false)).result.success = true ∧
    (Migration.resetToDefaults { preferences := [], contentFilters := [] }
        ["u1"] false 100 (fun _ => false)).store =
      { preferences := [], contentFilters := [] } := by
  refine ⟨?_, ?_, ?_, ?_⟩ <;>
    simp [Migration.resetToDefaults, Migration.chunkList, Migration.runBatches,
      Repo.bulkUpdatePreferences, Repo.prefUpdateNonempty,
      Migration.defaultPreferencesUpdate, Repo.getUserPreferences]

/-- C3 amended: in a live migration run the affectedUsers value equals the
sum of the full sizes of the batches whose bulk update did not throw — every
user listed in a succeeding batch is counted, including users whose store
rows did not exist or were not modified by the bulk update.  Stated for
resetToDefaults, the operation whose caller-supplied id list can name absent
users. -/
theorem resetToDefaults_affected_is_successful_batch_sizes (store : Store)
    (userIds : List String) (batchSize : Nat) (fails : Nat → Bool)
    (hB : 1 ≤ batchSize) :
    (Migration.resetToDefaults store userIds false batchSize fails).result.affectedUsers =
      (((Migration.chunkList batchSize userIds).enumFrom 0).map
        (fun p => if fails p.1 then 0 else p.2.length)).sum := by
  simp [Migration.resetToDefaults, runBatches_migratedCount]

/-- Witness for resetToDefaults_affected_is_successful_batch_sizes: the
counterexample input, where the sum of successful batch sizes is 1. -/
theorem resetToDefaults_affected_is_successful_batch_sizes_witness :
    (1 ≤ 100) ∧
    (Migration.resetToDefaults { preferences := [], contentFilters := [] }
        ["u1"] false 100 (fun _ => false)).result.affectedUsers =
      (((Migration.chunkList 100 ["u1"]).enumFrom 0).map
        (fun p => if (fun _ : Nat => false) p.1 then 0 else p.2.length)).sum := by
  exact ⟨by decide,
    resetToDefaults_affected_is_successful_batch_sizes
      { preferences := [], contentFilters := [] } ["u1"] 100 (fun _ => false)
      (by decide)⟩

end NewsPlatform
